import Mathlib

/-!
Verification of `bots/tasks/deliver_webhook_task.py` (the `deliver_webhook`
celery task of the attendee repository).

The task is embedded shallowly: the Django ORM, the `requests` library, the
clock and the logger are replaced by an explicit environment (`Env`) holding
the outcome of each external interaction, and the task becomes a pure function
`deliver_webhook : Env → Nat → RunResult` returning every observable effect:
the records passed to `save()`, the log records emitted, the HTTP request
issued (if any), and whether an unguarded Python exception escaped.

Python strings are sequences of unicode code points, so response bodies are
modelled as `List Char`; `text[:10000]` becomes `List.take 10000`.
-/

namespace Attendee

/-- Modelled from the spec: `WebhookDeliveryAttemptStatus` lives in
`bots/models.py`, which is not part of the sources; the spec describes the
states as PENDING (initial) → SUCCESS | FAILURE.  The string `"failed"`
assigned on the inactive-subscription path denotes the FAILURE state. -/
inductive WebhookDeliveryAttemptStatus where
  | pending
  | success
  | failure
deriving DecidableEq, Repr

/-- A signing secret of a subscription: an active flag and a creation
timestamp (modelled as a `Nat`), per spec §3.  `get_secret` returns the
secret value. -/
structure WebhookSecret where
  secret : String
  is_active : Bool
  created_at : Nat
deriving DecidableEq, Repr

/-- Modelled from the spec: `get_secret` of `bots/models.py` is not in the
sources; it returns the secret's value. -/
def WebhookSecret.get_secret (s : WebhookSecret) : String :=
  s.secret

/-- A webhook subscription: destination URL, active flag, and its secrets,
per spec §3. -/
structure WebhookSubscription where
  url : String
  is_active : Bool
  secrets : List WebhookSecret
deriving DecidableEq, Repr

/-- The bot referenced by a delivery attempt; only its `object_id` is read. -/
structure Bot where
  object_id : String
deriving DecidableEq, Repr

/-- The `WebhookDeliveryAttempt` record, fields as read and written by
`deliver_webhook` (spec §3). -/
structure WebhookDeliveryAttempt where
  id : Nat
  idempotency_key : String
  bot : Option Bot
  webhook_subscription : WebhookSubscription
  webhook_event_type : Nat
  payload : String
  attempt_count : Nat
  last_attempt_at : Option Nat
  succeeded_at : Option Nat
  status : WebhookDeliveryAttemptStatus
  response_status_code : Option Nat
  response_body_list : List (List Char)
  error_message : Option String
deriving DecidableEq, Repr

/-- The JSON body built at lines 38–43 of the task. -/
structure WebhookData where
  idempotency_key : String
  bot_id : Option String
  trigger : String
  data : String
deriving DecidableEq, Repr

/-- Modelled from the spec: `WebhookTriggerTypes.trigger_type_to_api_code`
 (`bots/models.py`) is not in the sources; the spec calls it a normalized
trigger-type code, a pure function of the event type. -/
def trigger_type_to_api_code (t : Nat) : String :=
  toString t

/-- Modelled from the spec: `sign_payload` (`bots/webhook_utils.py`) is not in
the sources; the spec describes a deterministic keyed-hash over the payload's
canonical serialization.  Any deterministic function of payload and secret is
a faithful model for the claims considered here. -/
def sign_payload (payload : WebhookData) (secret : String) : String :=
  secret ++ ":" ++ payload.idempotency_key ++ "|" ++ payload.bot_id.getD "null"
    ++ "|" ++ payload.trigger ++ "|" ++ payload.data

/-- Outcome of `requests.post`: either a response (status code and body text)
or a transport-level `requests.RequestException`. -/
inductive HttpOutcome where
  | response (status_code : Nat) (text : List Char)
  | requestException
deriving DecidableEq, Repr

/-- The HTTP POST issued at lines 55–64: destination URL, JSON body, and the
signature header. -/
structure HttpRequest where
  url : String
  body : WebhookData
  signature : String
deriving DecidableEq, Repr

/-- The two log records `deliver_webhook` can emit (lines 25 and 91),
modelled structurally with the values interpolated into the message. -/
inductive LogEvent where
  | attemptNotFound (delivery_id : Nat)
  | finalFailure (attempt_count : Nat) (id : Nat) (url : String)
      (event_type : Nat) (status : WebhookDeliveryAttemptStatus)
deriving DecidableEq, Repr

/-- Environment of one invocation: the result of
`WebhookDeliveryAttempt.objects.get` (`none` models `DoesNotExist`), the
outcome of the HTTP POST, and the values of the two `timezone.now()` calls
(lines 51 and 76). -/
structure Env where
  lookup : Option WebhookDeliveryAttempt
  httpOutcome : HttpOutcome
  now1 : Nat
  now2 : Nat
deriving DecidableEq, Repr

/-- Observable effects of one invocation: records passed to `save()` in
order, log records emitted in order, the HTTP request issued (if the POST was
attempted), and whether an unguarded exception escaped the task. -/
structure RunResult where
  saves : List WebhookDeliveryAttempt
  logs : List LogEvent
  httpRequest : Option HttpRequest
  fatal : Bool
deriving DecidableEq, Repr

/-- The `max_retries=5` setting of the `@shared_task` decorator (line 16);
read inside the task as `self.max_retries` (line 90). -/
def max_retries : Nat := 5

/-- Ordering used by `.order_by('-created_at')`: newest first. -/
def secNewerEq (a b : WebhookSecret) : Prop :=
  b.created_at ≤ a.created_at

instance : DecidableRel secNewerEq :=
  fun a b => Nat.decLe b.created_at a.created_at

instance : IsTotal WebhookSecret secNewerEq :=
  ⟨fun a b => Nat.le_total b.created_at a.created_at⟩

instance : IsTrans WebhookSecret secNewerEq :=
  ⟨fun _ _ _ hab hbc => Nat.le_trans hbc hab⟩

/-- Line 46: `subscription.secrets.filter(is_active=True).order_by('-created_at').first()`. -/
def firstActiveSecret (secrets : List WebhookSecret) : Option WebhookSecret :=
  (List.insertionSort secNewerEq (secrets.filter (fun s => s.is_active))).head?

/-- Lines 38–43: the webhook payload. -/
def webhookDataOf (delivery : WebhookDeliveryAttempt) : WebhookData :=
  { idempotency_key := delivery.idempotency_key
    bot_id := delivery.bot.map Bot.object_id
    trigger := trigger_type_to_api_code delivery.webhook_event_type
    data := delivery.payload }

/-- Lines 87–91: the final `delivery.save()` followed by the last-retry
check and, when it fires, the error log. -/
def finalSaveAndLog (delivery : WebhookDeliveryAttempt)
    (subscription : WebhookSubscription) (req : HttpRequest) : RunResult :=
  { saves := [delivery]
    logs :=
      if max_retries ≤ delivery.attempt_count ∧
          delivery.status = WebhookDeliveryAttemptStatus.failure then
        [LogEvent.finalFailure delivery.attempt_count delivery.id
          subscription.url delivery.webhook_event_type delivery.status]
      else []
    httpRequest := some req
    fatal := false }

/-- The `deliver_webhook` task (lines 18–91), as a pure function of the
environment and the `delivery_id` argument.  When `firstActiveSecret` is
`none`, line 47 calls `.get_secret()` on Python `None`, an unguarded
`AttributeError`: modelled by `fatal := true` with the effects accumulated so
far (none: no save, no log, no HTTP call precede line 47 on this path). -/
def deliver_webhook (env : Env) (delivery_id : Nat) : RunResult :=
  match env.lookup with
  | none =>
      { saves := []
        logs := [LogEvent.attemptNotFound delivery_id]
        httpRequest := none
        fatal := false }
  | some delivery =>
      let subscription := delivery.webhook_subscription
      if subscription.is_active = false then
        let delivery :=
          { delivery with
              status := WebhookDeliveryAttemptStatus.failure
              error_message := some "Webhook subscription is no longer active" }
        { saves := [delivery], logs := [], httpRequest := none, fatal := false }
      else
        let webhook_data := webhookDataOf delivery
        match firstActiveSecret subscription.secrets with
        | none =>
            { saves := [], logs := [], httpRequest := none, fatal := true }
        | some active_secret =>
            let signature := sign_payload webhook_data active_secret.get_secret
            let delivery :=
              { delivery with
                  attempt_count := delivery.attempt_count + 1
                  last_attempt_at := some env.now1 }
            let req : HttpRequest :=
              { url := subscription.url, body := webhook_data, signature := signature }
            match env.httpOutcome with
            | HttpOutcome.response status_code text =>
                let delivery :=
                  { delivery with
                      response_status_code := some status_code
                      response_body_list :=
                        delivery.response_body_list ++ [text.take 10000] }
                if 200 ≤ status_code ∧ status_code < 300 then
                  let delivery :=
                    { delivery with
                        status := WebhookDeliveryAttemptStatus.success
                        succeeded_at := some env.now2 }
                  { saves := [delivery], logs := [], httpRequest := some req, fatal := false }
                else
                  let delivery :=
                    { delivery with status := WebhookDeliveryAttemptStatus.failure }
                  finalSaveAndLog delivery subscription req
            | HttpOutcome.requestException =>
                let delivery :=
                  { delivery with status := WebhookDeliveryAttemptStatus.failure }
                finalSaveAndLog delivery subscription req

/-! ### Concrete fixtures used by witnesses and counterexamples -/

/-- Number of UTF-8 bytes of a Python string modelled as a `List Char`.
Used to compare the character-based truncation of the code with the
byte-based truncation the spec describes. -/
def utf8Length (l : List Char) : Nat :=
  (l.map Char.utf8Size).sum

/-- An active signing secret. -/
def sampleSecret : WebhookSecret :=
  { secret := "s1", is_active := true, created_at := 10 }

/-- An older active signing secret. -/
def olderSecret : WebhookSecret :=
  { secret := "s0", is_active := true, created_at := 4 }

/-- An inactive signing secret. -/
def retiredSecret : WebhookSecret :=
  { secret := "sx", is_active := false, created_at := 20 }

/-- An active subscription with one active secret. -/
def sampleSubscription : WebhookSubscription :=
  { url := "https://example.com/hook", is_active := true, secrets := [sampleSecret] }

/-- An active subscription with several secrets; the newest active one is
`sampleSecret` (an inactive secret is newer still). -/
def rotatedSubscription : WebhookSubscription :=
  { url := "https://example.com/hook", is_active := true
    secrets := [olderSecret, retiredSecret, sampleSecret] }

/-- An inactive subscription. -/
def disabledSubscription : WebhookSubscription :=
  { url := "https://example.com/hook", is_active := false, secrets := [sampleSecret] }

/-- An active subscription whose only secret is inactive. -/
def secretlessSubscription : WebhookSubscription :=
  { url := "https://example.com/hook", is_active := true, secrets := [retiredSecret] }

/-- A fresh delivery attempt for `sampleSubscription`. -/
def sampleAttempt : WebhookDeliveryAttempt :=
  { id := 7
    idempotency_key := "k1"
    bot := none
    webhook_subscription := sampleSubscription
    webhook_event_type := 2
    payload := "pay"
    attempt_count := 0
    last_attempt_at := none
    succeeded_at := none
    status := WebhookDeliveryAttemptStatus.pending
    response_status_code := none
    response_body_list := []
    error_message := none }

/-- A 6,000-character body, each character two UTF-8 bytes: 12,000 bytes. -/
def bigBody : List Char := List.replicate 6000 '¢'

/-- An attempt whose subscription has been disabled, after three attempts. -/
def disabledAttempt : WebhookDeliveryAttempt :=
  { sampleAttempt with webhook_subscription := disabledSubscription, attempt_count := 3 }

/-- An attempt whose subscription has been disabled after the counter already
reached the retry ceiling. -/
def exhaustedDisabledAttempt : WebhookDeliveryAttempt :=
  { sampleAttempt with webhook_subscription := disabledSubscription, attempt_count := 5 }

/-- An attempt whose subscription has no active secret. -/
def secretlessAttempt : WebhookDeliveryAttempt :=
  { sampleAttempt with webhook_subscription := secretlessSubscription }

/-- An attempt against a subscription with several secrets. -/
def rotatedAttempt : WebhookDeliveryAttempt :=
  { sampleAttempt with webhook_subscription := rotatedSubscription }

/-- An attempt one invocation away from the retry ceiling. -/
def nearCeilingAttempt : WebhookDeliveryAttempt :=
  { sampleAttempt with attempt_count := 4 }

/-- Environment: attempt found, destination answers `200` with body `ok`. -/
def env200 : Env :=
  { lookup := some sampleAttempt
    httpOutcome := HttpOutcome.response 200 ['o', 'k']
    now1 := 100, now2 := 101 }

/-- Environment: attempt found, destination answers `404`. -/
def env404 : Env :=
  { lookup := some sampleAttempt
    httpOutcome := HttpOutcome.response 404 ['n', 'o']
    now1 := 100, now2 := 101 }

/-- Environment: attempt found, destination answers `500` with a 12,000-byte
body of 6,000 characters. -/
def env500big : Env :=
  { lookup := some sampleAttempt
    httpOutcome := HttpOutcome.response 500 bigBody
    now1 := 100, now2 := 101 }

/-- Environment: attempt found, `requests.post` raises (connection refused). -/
def envRefused : Env :=
  { lookup := some sampleAttempt
    httpOutcome := HttpOutcome.requestException
    now1 := 100, now2 := 101 }

/-- Environment: lookup misses (`DoesNotExist`). -/
def envMissing : Env :=
  { lookup := none
    httpOutcome := HttpOutcome.requestException
    now1 := 100, now2 := 101 }

/-- Environment: disabled subscription, three prior attempts. -/
def envDisabled : Env :=
  { lookup := some disabledAttempt
    httpOutcome := HttpOutcome.requestException
    now1 := 100, now2 := 101 }

/-- Environment: disabled subscription after the counter reached the ceiling. -/
def envExhaustedDisabled : Env :=
  { lookup := some exhaustedDisabledAttempt
    httpOutcome := HttpOutcome.requestException
    now1 := 100, now2 := 101 }

/-- Environment: subscription with no active secret. -/
def envSecretless : Env :=
  { lookup := some secretlessAttempt
    httpOutcome := HttpOutcome.requestException
    now1 := 100, now2 := 101 }

/-- Environment: subscription with several secrets, destination answers `204`. -/
def envRotated : Env :=
  { lookup := some rotatedAttempt
    httpOutcome := HttpOutcome.response 204 []
    now1 := 100, now2 := 101 }

/-- Environment: one attempt left before the ceiling, connection refused. -/
def envNearCeiling : Env :=
  { lookup := some nearCeilingAttempt
    httpOutcome := HttpOutcome.requestException
    now1 := 100, now2 := 101 }

/-! ### Path-characterization lemmas -/

/-- Missing-record path (lines 22–26). -/
theorem run_missing (env : Env) (delivery_id : Nat)
    (hl : env.lookup = none) :
    deliver_webhook env delivery_id =
      { saves := []
        logs := [LogEvent.attemptNotFound delivery_id]
        httpRequest := none
        fatal := false } := by
  simp only [deliver_webhook, hl]

/-- Inactive-subscription path (lines 31–35). -/
theorem run_inactive (env : Env) (delivery_id : Nat) (d : WebhookDeliveryAttempt)
    (hl : env.lookup = some d)
    (ha : d.webhook_subscription.is_active = false) :
    deliver_webhook env delivery_id =
      { saves :=
          [{ d with
              status := WebhookDeliveryAttemptStatus.failure
              error_message := some "Webhook subscription is no longer active" }]
        logs := []
        httpRequest := none
        fatal := false } := by
  simp only [deliver_webhook, hl, ha]
  simp

/-- No-active-secret path: line 47 raises `AttributeError` on `None`. -/
theorem run_no_active_secret (env : Env) (delivery_id : Nat)
    (d : WebhookDeliveryAttempt)
    (hl : env.lookup = some d)
    (ha : d.webhook_subscription.is_active = true)
    (hs : firstActiveSecret d.webhook_subscription.secrets = none) :
    deliver_webhook env delivery_id =
      { saves := [], logs := [], httpRequest := none, fatal := true } := by
  simp only [deliver_webhook, hl, ha, hs]
  simp

/-- Transport-error path (lines 83–91). -/
theorem run_exception (env : Env) (delivery_id : Nat)
    (d : WebhookDeliveryAttempt) (sec : WebhookSecret)
    (hl : env.lookup = some d)
    (ha : d.webhook_subscription.is_active = true)
    (hs : firstActiveSecret d.webhook_subscription.secrets = some sec)
    (ho : env.httpOutcome = HttpOutcome.requestException) :
    deliver_webhook env delivery_id =
      finalSaveAndLog
        { d with
            attempt_count := d.attempt_count + 1
            last_attempt_at := some env.now1
            status := WebhookDeliveryAttemptStatus.failure }
        d.webhook_subscription
        { url := d.webhook_subscription.url
          body := webhookDataOf d
          signature := sign_payload (webhookDataOf d) sec.get_secret } := by
  simp only [deliver_webhook, hl, ha, hs, ho]
  simp

/-- Successful-response path (lines 66–78), `200 ≤ s < 300`. -/
theorem run_response_success (env : Env) (delivery_id : Nat)
    (d : WebhookDeliveryAttempt) (sec : WebhookSecret)
    (status_code : Nat) (text : List Char)
    (hl : env.lookup = some d)
    (ha : d.webhook_subscription.is_active = true)
    (hs : firstActiveSecret d.webhook_subscription.secrets = some sec)
    (ho : env.httpOutcome = HttpOutcome.response status_code text)
    (h2xx : 200 ≤ status_code ∧ status_code < 300) :
    deliver_webhook env delivery_id =
      { saves :=
          [{ d with
              attempt_count := d.attempt_count + 1
              last_attempt_at := some env.now1
              response_status_code := some status_code
              response_body_list := d.response_body_list ++ [text.take 10000]
              status := WebhookDeliveryAttemptStatus.success
              succeeded_at := some env.now2 }]
        logs := []
        httpRequest := some
          { url := d.webhook_subscription.url
            body := webhookDataOf d
            signature := sign_payload (webhookDataOf d) sec.get_secret }
        fatal := false } := by
  simp only [deliver_webhook, hl, ha, hs, ho]
  simp [h2xx.1, h2xx.2]

/-- Failed-response path (lines 80–91), status outside `[200, 300)`. -/
theorem run_response_failure (env : Env) (delivery_id : Nat)
    (d : WebhookDeliveryAttempt) (sec : WebhookSecret)
    (status_code : Nat) (text : List Char)
    (hl : env.lookup = some d)
    (ha : d.webhook_subscription.is_active = true)
    (hs : firstActiveSecret d.webhook_subscription.secrets = some sec)
    (ho : env.httpOutcome = HttpOutcome.response status_code text)
    (h2xx : ¬(200 ≤ status_code ∧ status_code < 300)) :
    deliver_webhook env delivery_id =
      finalSaveAndLog
        { d with
            attempt_count := d.attempt_count + 1
            last_attempt_at := some env.now1
            response_status_code := some status_code
            response_body_list := d.response_body_list ++ [text.take 10000]
            status := WebhookDeliveryAttemptStatus.failure }
        d.webhook_subscription
        { url := d.webhook_subscription.url
          body := webhookDataOf d
          signature := sign_payload (webhookDataOf d) sec.get_secret } := by
  simp only [deliver_webhook, hl, ha, hs, ho]
  simp [h2xx]

/-! ### Properties of the secret-selection query -/

/-- The secret returned by line 46 belongs to the subscription, is active,
and no active secret of the subscription was created later. -/
theorem firstActiveSecret_newest_active (secrets : List WebhookSecret)
    (sec : WebhookSecret)
    (h : firstActiveSecret secrets = some sec) :
    sec ∈ secrets ∧ sec.is_active = true ∧
      ∀ s ∈ secrets, s.is_active = true → s.created_at ≤ sec.created_at := by
  unfold firstActiveSecret at h
  obtain ⟨rest, hrest⟩ :
      ∃ rest,
        List.insertionSort secNewerEq (secrets.filter (fun s => s.is_active)) =
          sec :: rest := by
    cases hl : List.insertionSort secNewerEq (secrets.filter (fun s => s.is_active)) with
    | nil => rw [hl] at h; simp at h
    | cons a t =>
        rw [hl] at h
        simp only [List.head?] at h
        exact ⟨t, by rw [Option.some_inj.mp h] at hl ⊢⟩
  have hsorted :
      List.Sorted secNewerEq (sec :: rest) := by
    rw [← hrest]
    exact List.sorted_insertionSort secNewerEq _
  have hmax : ∀ b ∈ rest, secNewerEq sec b :=
    List.rel_of_sorted_cons hsorted
  have hmem : sec ∈ secrets.filter (fun s => s.is_active) := by
    have : sec ∈ List.insertionSort secNewerEq (secrets.filter (fun s => s.is_active)) := by
      rw [hrest]; exact List.mem_cons_self _ _
    rwa [List.mem_insertionSort] at this
  refine ⟨List.mem_of_mem_filter hmem, by simpa using List.of_mem_filter hmem, ?_⟩
  intro s hsmem hsact
  have hsl : s ∈ secrets.filter (fun t => t.is_active) :=
    List.mem_filter.mpr ⟨hsmem, by simp [hsact]⟩
  have : s ∈ sec :: rest := by
    rw [← hrest, List.mem_insertionSort]; exact hsl
  rcases List.mem_cons.mp this with h1 | h2
  · rw [h1]
  · exact hmax s h2

/-- With no active secret, line 46 returns `None`. -/
theorem firstActiveSecret_of_no_active (secrets : List WebhookSecret)
    (h : secrets.filter (fun s => s.is_active) = []) :
    firstActiveSecret secrets = none := by
  unfold firstActiveSecret
  rw [h]
  rfl

/-- UTF-8 byte length of a constant string. -/
theorem utf8Length_replicate (n : Nat) (c : Char) :
    utf8Length (List.replicate n c) = n * c.utf8Size := by
  simp [utf8Length, List.map_replicate, List.sum_replicate, smul_eq_mul]

/-! ### Claims -/

/-- C2: when the delivery attempt exists and its subscription is inactive,
the attempt transitions to FAILURE with a non-empty explanatory error
message, the record is persisted, no HTTP call is made, and the invocation
returns normally. -/
theorem C2_inactive_subscription_short_circuit
    (env : Env) (delivery_id : Nat) (d : WebhookDeliveryAttempt)
    (hl : env.lookup = some d)
    (ha : d.webhook_subscription.is_active = false) :
    ∃ saved, (deliver_webhook env delivery_id).saves = [saved] ∧
      saved.status = WebhookDeliveryAttemptStatus.failure ∧
      (∃ msg, saved.error_message = some msg ∧ msg ≠ "") ∧
      (deliver_webhook env delivery_id).httpRequest = none ∧
      (deliver_webhook env delivery_id).fatal = false := by
  rw [run_inactive env delivery_id d hl ha]
  exact ⟨_, rfl, rfl, ⟨_, rfl, by decide⟩, rfl, rfl⟩

/-- Witness for C2 at a concrete disabled subscription. -/
theorem C2_inactive_subscription_short_circuit_witness :
    ∃ saved, (deliver_webhook envDisabled 7).saves = [saved] ∧
      saved.status = WebhookDeliveryAttemptStatus.failure ∧
      (∃ msg, saved.error_message = some msg ∧ msg ≠ "") ∧
      (deliver_webhook envDisabled 7).httpRequest = none ∧
      (deliver_webhook envDisabled 7).fatal = false :=
  C2_inactive_subscription_short_circuit envDisabled 7 disabledAttempt rfl rfl

/-- C7: when the attempt identifier does not resolve, the miss is logged,
the invocation ends cleanly, nothing is saved, and no HTTP call is made. -/
theorem C7_missing_attempt
    (env : Env) (delivery_id : Nat)
    (hl : env.lookup = none) :
    (deliver_webhook env delivery_id).saves = [] ∧
    (deliver_webhook env delivery_id).httpRequest = none ∧
    (deliver_webhook env delivery_id).fatal = false ∧
    (deliver_webhook env delivery_id).logs =
      [LogEvent.attemptNotFound delivery_id] := by
  rw [run_missing env delivery_id hl]
  exact ⟨rfl, rfl, rfl, rfl⟩

/-- Witness for C7 at a concrete missing identifier. -/
theorem C7_missing_attempt_witness :
    (deliver_webhook envMissing 42).saves = [] ∧
    (deliver_webhook envMissing 42).httpRequest = none ∧
    (deliver_webhook envMissing 42).fatal = false ∧
    (deliver_webhook envMissing 42).logs = [LogEvent.attemptNotFound 42] :=
  C7_missing_attempt envMissing 42 rfl

/-- C10: on the inactive-subscription path only `status` and `error_message`
change; `attempt_count`, `last_attempt_at`, `succeeded_at`,
`response_status_code` and `response_body_list` are unchanged. -/
theorem C10_inactive_subscription_frame
    (env : Env) (delivery_id : Nat) (d : WebhookDeliveryAttempt)
    (hl : env.lookup = some d)
    (ha : d.webhook_subscription.is_active = false) :
    ∃ saved, (deliver_webhook env delivery_id).saves = [saved] ∧
      saved.attempt_count = d.attempt_count ∧
      saved.last_attempt_at = d.last_attempt_at ∧
      saved.succeeded_at = d.succeeded_at ∧
      saved.response_status_code = d.response_status_code ∧
      saved.response_body_list = d.response_body_list := by
  rw [run_inactive env delivery_id d hl ha]
  exact ⟨_, rfl, rfl, rfl, rfl, rfl, rfl⟩

/-- Witness for C10 at a concrete disabled subscription. -/
theorem C10_inactive_subscription_frame_witness :
    ∃ saved, (deliver_webhook envDisabled 7).saves = [saved] ∧
      saved.attempt_count = disabledAttempt.attempt_count ∧
      saved.last_attempt_at = disabledAttempt.last_attempt_at ∧
      saved.succeeded_at = disabledAttempt.succeeded_at ∧
      saved.response_status_code = disabledAttempt.response_status_code ∧
      saved.response_body_list = disabledAttempt.response_body_list :=
  C10_inactive_subscription_frame envDisabled 7 disabledAttempt rfl rfl

/-- C4: on a transport-level error the attempt is persisted with status
FAILURE, `response_status_code` and `response_body_list` unchanged (so still
unset/empty when they started unset/empty), and the counter incremented. -/
theorem C4_transport_error
    (env : Env) (delivery_id : Nat) (d : WebhookDeliveryAttempt)
    (sec : WebhookSecret)
    (hl : env.lookup = some d)
    (ha : d.webhook_subscription.is_active = true)
    (hs : firstActiveSecret d.webhook_subscription.secrets = some sec)
    (ho : env.httpOutcome = HttpOutcome.requestException) :
    ∃ saved, (deliver_webhook env delivery_id).saves = [saved] ∧
      saved.status = WebhookDeliveryAttemptStatus.failure ∧
      saved.response_status_code = d.response_status_code ∧
      saved.response_body_list = d.response_body_list ∧
      saved.attempt_count = d.attempt_count + 1 := by
  rw [run_exception env delivery_id d sec hl ha hs ho]
  exact ⟨_, rfl, rfl, rfl, rfl, rfl⟩

/-- Witness for C4 at a concrete refused connection. -/
theorem C4_transport_error_witness :
    ∃ saved, (deliver_webhook envRefused 7).saves = [saved] ∧
      saved.status = WebhookDeliveryAttemptStatus.failure ∧
      saved.response_status_code = sampleAttempt.response_status_code ∧
      saved.response_body_list = sampleAttempt.response_body_list ∧
      saved.attempt_count = sampleAttempt.attempt_count + 1 :=
  C4_transport_error envRefused 7 sampleAttempt sampleSecret rfl rfl rfl rfl

/-- C9: with an active subscription but zero active secrets the invocation
dies with an unguarded error at signing time: nothing is saved (so the
persisted record is unchanged, the counter in particular), no HTTP request is
made, nothing is logged. -/
theorem C9_no_active_secret_fatal
    (env : Env) (delivery_id : Nat) (d : WebhookDeliveryAttempt)
    (hl : env.lookup = some d)
    (ha : d.webhook_subscription.is_active = true)
    (hz : d.webhook_subscription.secrets.filter (fun s => s.is_active) = []) :
    (deliver_webhook env delivery_id).fatal = true ∧
    (deliver_webhook env delivery_id).saves = [] ∧
    (deliver_webhook env delivery_id).httpRequest = none ∧
    (deliver_webhook env delivery_id).logs = [] := by
  rw [run_no_active_secret env delivery_id d hl ha
    (firstActiveSecret_of_no_active _ hz)]
  exact ⟨rfl, rfl, rfl, rfl⟩

/-- Witness for C9 at a subscription whose only secret is retired. -/
theorem C9_no_active_secret_fatal_witness :
    (deliver_webhook envSecretless 7).fatal = true ∧
    (deliver_webhook envSecretless 7).saves = [] ∧
    (deliver_webhook envSecretless 7).httpRequest = none ∧
    (deliver_webhook envSecretless 7).logs = [] :=
  C9_no_active_secret_fatal envSecretless 7 secretlessAttempt rfl rfl rfl

/-- C1: when the attempt exists, its subscription is active and the POST
returns status `s`, a `2xx` response yields SUCCESS with `succeeded_at` set
and any other status yields FAILURE with `succeeded_at` unchanged (so still
unset when it started unset). -/
theorem C1_status_classification
    (env : Env) (delivery_id : Nat) (d : WebhookDeliveryAttempt)
    (sec : WebhookSecret) (s : Nat) (text : List Char)
    (hl : env.lookup = some d)
    (ha : d.webhook_subscription.is_active = true)
    (hs : firstActiveSecret d.webhook_subscription.secrets = some sec)
    (ho : env.httpOutcome = HttpOutcome.response s text) :
    ∃ saved, (deliver_webhook env delivery_id).saves = [saved] ∧
      (200 ≤ s ∧ s < 300 →
        saved.status = WebhookDeliveryAttemptStatus.success ∧
        saved.succeeded_at = some env.now2) ∧
      (¬(200 ≤ s ∧ s < 300) →
        saved.status = WebhookDeliveryAttemptStatus.failure ∧
        saved.succeeded_at = d.succeeded_at) := by
  by_cases h2 : 200 ≤ s ∧ s < 300
  · rw [run_response_success env delivery_id d sec s text hl ha hs ho h2]
    exact ⟨_, rfl, fun _ => ⟨rfl, rfl⟩, fun hc => absurd h2 hc⟩
  · rw [run_response_failure env delivery_id d sec s text hl ha hs ho h2]
    exact ⟨_, rfl, fun hc => absurd hc h2, fun _ => ⟨rfl, rfl⟩⟩

/-- Witness for C1 at a concrete `200` response. -/
theorem C1_status_classification_witness :
    ∃ saved, (deliver_webhook env200 7).saves = [saved] ∧
      (200 ≤ 200 ∧ 200 < 300 →
        saved.status = WebhookDeliveryAttemptStatus.success ∧
        saved.succeeded_at = some env200.now2) ∧
      (¬(200 ≤ 200 ∧ 200 < 300) →
        saved.status = WebhookDeliveryAttemptStatus.failure ∧
        saved.succeeded_at = sampleAttempt.succeeded_at) :=
  C1_status_classification env200 7 sampleAttempt sampleSecret 200 ['o', 'k']
    rfl rfl rfl rfl

/-- C8: whenever signing is reached, the secret used to sign is an active
secret of the subscription that no other active secret postdates, and the
issued request carries the signature computed from it. -/
theorem C8_secret_selection
    (env : Env) (delivery_id : Nat) (d : WebhookDeliveryAttempt)
    (sec : WebhookSecret)
    (hl : env.lookup = some d)
    (ha : d.webhook_subscription.is_active = true)
    (hs : firstActiveSecret d.webhook_subscription.secrets = some sec) :
    sec ∈ d.webhook_subscription.secrets ∧
    sec.is_active = true ∧
    (∀ s ∈ d.webhook_subscription.secrets,
      s.is_active = true → s.created_at ≤ sec.created_at) ∧
    (deliver_webhook env delivery_id).httpRequest =
      some { url := d.webhook_subscription.url
             body := webhookDataOf d
             signature := sign_payload (webhookDataOf d) sec.get_secret } := by
  obtain ⟨hmem, hact, hmax⟩ := firstActiveSecret_newest_active _ _ hs
  refine ⟨hmem, hact, hmax, ?_⟩
  cases ho : env.httpOutcome with
  | requestException =>
      rw [run_exception env delivery_id d sec hl ha hs ho]; rfl
  | response s text =>
      by_cases h2 : 200 ≤ s ∧ s < 300
      · rw [run_response_success env delivery_id d sec s text hl ha hs ho h2]
      · rw [run_response_failure env delivery_id d sec s text hl ha hs ho h2]; rfl

/-- Witness for C8 at a subscription holding an older active secret, a newer
inactive secret, and the newest active secret. -/
theorem C8_secret_selection_witness :
    sampleSecret ∈ rotatedAttempt.webhook_subscription.secrets ∧
    sampleSecret.is_active = true ∧
    (∀ s ∈ rotatedAttempt.webhook_subscription.secrets,
      s.is_active = true → s.created_at ≤ sampleSecret.created_at) ∧
    (deliver_webhook envRotated 7).httpRequest =
      some { url := rotatedAttempt.webhook_subscription.url
             body := webhookDataOf rotatedAttempt
             signature :=
               sign_payload (webhookDataOf rotatedAttempt) sampleSecret.get_secret } :=
  C8_secret_selection envRotated 7 rotatedAttempt sampleSecret rfl rfl rfl

/-- C3 counterexample: an invocation on a disabled subscription persists the
record with the attempt counter unchanged (3 before, 3 after), so not every
invocation increases the counter. -/
theorem C3_counterexample :
    disabledAttempt.attempt_count = 3 ∧
    (deliver_webhook envDisabled 7).saves.map WebhookDeliveryAttempt.attempt_count =
      [3] ∧
    ¬ ∀ saved ∈ (deliver_webhook envDisabled 7).saves,
        disabledAttempt.attempt_count < saved.attempt_count := by
  refine ⟨rfl, by decide, by decide⟩

/-- C3 (amended): the attempt counter never decreases, every invocation that
issues the HTTP request increments it by exactly one, and guard-path
invocations leave it unchanged — a missing record persists nothing at all,
and every record persisted by an invocation that made no HTTP call carries
the counter unchanged. -/
theorem C3_attempt_count_monotone
    (env : Env) (delivery_id : Nat) :
    (env.lookup = none → (deliver_webhook env delivery_id).saves = []) ∧
    ∀ d, env.lookup = some d →
      (∀ saved ∈ (deliver_webhook env delivery_id).saves,
          d.attempt_count ≤ saved.attempt_count) ∧
      ((deliver_webhook env delivery_id).httpRequest.isSome = true →
        ∀ saved ∈ (deliver_webhook env delivery_id).saves,
          saved.attempt_count = d.attempt_count + 1) ∧
      ((deliver_webhook env delivery_id).httpRequest = none →
        ∀ saved ∈ (deliver_webhook env delivery_id).saves,
          saved.attempt_count = d.attempt_count) := by
  constructor
  · intro hl
    rw [run_missing env delivery_id hl]
  · intro d hl
    cases ha : d.webhook_subscription.is_active with
    | false =>
        rw [run_inactive env delivery_id d hl ha]
        simp
    | true =>
        cases hsec : firstActiveSecret d.webhook_subscription.secrets with
        | none =>
            rw [run_no_active_secret env delivery_id d hl ha hsec]
            simp
        | some sec =>
            cases ho : env.httpOutcome with
            | requestException =>
                rw [run_exception env delivery_id d sec hl ha hsec ho]
                simp [finalSaveAndLog]
            | response s text =>
                by_cases h2 : 200 ≤ s ∧ s < 300
                · rw [run_response_success env delivery_id d sec s text hl ha hsec ho h2]
                  simp
                · rw [run_response_failure env delivery_id d sec s text hl ha hsec ho h2]
                  simp [finalSaveAndLog]

/-- Witness for the amended C3: a missing record persists nothing, and the
record persisted on a concrete inactive-subscription invocation (no HTTP
call) carries the counter unchanged. -/
theorem C3_attempt_count_monotone_witness :
    (deliver_webhook envMissing 42).saves = [] ∧
    WebhookDeliveryAttempt.attempt_count
        { disabledAttempt with
            status := WebhookDeliveryAttemptStatus.failure
            error_message := some "Webhook subscription is no longer active" } =
      disabledAttempt.attempt_count :=
  ⟨(C3_attempt_count_monotone envMissing 42).1 rfl,
    ((C3_attempt_count_monotone envDisabled 7).2 disabledAttempt rfl).2.2 rfl _
      (by
        rw [run_inactive envDisabled 7 disabledAttempt rfl rfl]
        exact List.mem_singleton.mpr rfl)⟩

/-- C5 counterexample: a response body of 6,000 two-byte characters (12,000
UTF-8 bytes, longer than 10,000 bytes) is stored whole — 12,000 bytes, not
the first 10,000 bytes — because line 70 slices code points, not bytes. -/
theorem C5_counterexample :
    10000 < utf8Length bigBody ∧
    (deliver_webhook env500big 7).saves.map
        WebhookDeliveryAttempt.response_body_list =
      [[bigBody]] ∧
    utf8Length bigBody ≠ 10000 := by
  have hlen : utf8Length bigBody = 12000 := by
    unfold bigBody
    rw [utf8Length_replicate]
    rfl
  have hblen : bigBody.length = 6000 := by
    unfold bigBody
    rw [List.length_replicate]
  have htake : bigBody.take 10000 = bigBody :=
    List.take_of_length_le (by omega)
  refine ⟨by omega, ?_, by omega⟩
  rw [run_response_failure env500big 7 sampleAttempt sampleSecret 500 bigBody
    rfl rfl rfl rfl (by decide)]
  dsimp only [finalSaveAndLog, List.map_cons, List.map_nil]
  rw [htake]
  rfl

/-- C5 (amended): the stored entry is the first 10,000 characters (unicode
code points) of the body: bodies of more than 10,000 characters are truncated
to exactly 10,000 characters, shorter bodies are stored verbatim. -/
theorem C5_truncation_chars
    (env : Env) (delivery_id : Nat) (d : WebhookDeliveryAttempt)
    (sec : WebhookSecret) (s : Nat) (text : List Char)
    (hl : env.lookup = some d)
    (ha : d.webhook_subscription.is_active = true)
    (hs : firstActiveSecret d.webhook_subscription.secrets = some sec)
    (ho : env.httpOutcome = HttpOutcome.response s text) :
    ∃ saved, (deliver_webhook env delivery_id).saves = [saved] ∧
      saved.response_body_list = d.response_body_list ++ [text.take 10000] ∧
      (text.length ≤ 10000 → text.take 10000 = text) ∧
      (10000 < text.length → (text.take 10000).length = 10000) := by
  have h1 : text.length ≤ 10000 → text.take 10000 = text :=
    fun h => List.take_of_length_le h
  have h2 : 10000 < text.length → (text.take 10000).length = 10000 := by
    intro h
    rw [List.length_take]
    omega
  by_cases hx : 200 ≤ s ∧ s < 300
  · rw [run_response_success env delivery_id d sec s text hl ha hs ho hx]
    exact ⟨_, rfl, rfl, h1, h2⟩
  · rw [run_response_failure env delivery_id d sec s text hl ha hs ho hx]
    exact ⟨_, rfl, rfl, h1, h2⟩

/-- Witness for the amended C5 at a concrete two-character body. -/
theorem C5_truncation_chars_witness :
    ∃ saved, (deliver_webhook env200 7).saves = [saved] ∧
      saved.response_body_list =
        sampleAttempt.response_body_list ++ [List.take 10000 ['o', 'k']] ∧
      (List.length ['o', 'k'] ≤ 10000 →
        List.take 10000 ['o', 'k'] = ['o', 'k']) ∧
      (10000 < List.length ['o', 'k'] →
        (List.take 10000 ['o', 'k']).length = 10000) :=
  C5_truncation_chars env200 7 sampleAttempt sampleSecret 200 ['o', 'k']
    rfl rfl rfl rfl

/-- C6 counterexample: a disabled subscription whose attempt counter already
reached the ceiling persists status FAILURE with counter 5, yet no error log
record is emitted — the short-circuit path never runs the final-retry check,
so the claimed "if and only if" fails. -/
theorem C6_counterexample :
    (deliver_webhook envExhaustedDisabled 7).saves.map
        (fun r => (r.status, r.attempt_count)) =
      [(WebhookDeliveryAttemptStatus.failure, 5)] ∧
    max_retries ≤ 5 ∧
    (deliver_webhook envExhaustedDisabled 7).logs = [] := by
  decide

/-- C6 (amended): the inactive-subscription short-circuit never emits any log
record, whatever the persisted status and counter; in invocations that reach
the dispatch step, the error log record is emitted iff the persisted status
is FAILURE and the counter has reached the ceiling, and it then carries the
counter, the attempt id, the destination URL, the event type and the final
status. -/
theorem C6_final_failure_log_iff
    (env : Env) (delivery_id : Nat) (d : WebhookDeliveryAttempt)
    (hl : env.lookup = some d) :
    (d.webhook_subscription.is_active = false →
      (deliver_webhook env delivery_id).logs = []) ∧
    ∀ sec, d.webhook_subscription.is_active = true →
      firstActiveSecret d.webhook_subscription.secrets = some sec →
      ∃ saved, (deliver_webhook env delivery_id).saves = [saved] ∧
        ((deliver_webhook env delivery_id).logs ≠ [] ↔
          saved.status = WebhookDeliveryAttemptStatus.failure ∧
          max_retries ≤ saved.attempt_count) ∧
        ((deliver_webhook env delivery_id).logs ≠ [] →
          (deliver_webhook env delivery_id).logs =
            [LogEvent.finalFailure saved.attempt_count d.id
              d.webhook_subscription.url d.webhook_event_type saved.status]) := by
  constructor
  · intro ha
    rw [run_inactive env delivery_id d hl ha]
  intro sec ha hs
  cases ho : env.httpOutcome with
  | requestException =>
      rw [run_exception env delivery_id d sec hl ha hs ho]
      by_cases hc : max_retries ≤ d.attempt_count + 1
      · exact ⟨_, rfl, by simp [finalSaveAndLog, hc], by simp [finalSaveAndLog, hc]⟩
      · exact ⟨_, rfl, by simp [finalSaveAndLog, hc], by simp [finalSaveAndLog, hc]⟩
  | response s text =>
      by_cases h2 : 200 ≤ s ∧ s < 300
      · rw [run_response_success env delivery_id d sec s text hl ha hs ho h2]
        exact ⟨_, rfl, by simp, by simp⟩
      · rw [run_response_failure env delivery_id d sec s text hl ha hs ho h2]
        by_cases hc : max_retries ≤ d.attempt_count + 1
        · exact ⟨_, rfl, by simp [finalSaveAndLog, hc], by simp [finalSaveAndLog, hc]⟩
        · exact ⟨_, rfl, by simp [finalSaveAndLog, hc], by simp [finalSaveAndLog, hc]⟩

/-- Witness for the amended C6: a concrete inactive-subscription invocation
emits no log, and on the fifth attempt failing with a refused connection the
dispatch-path equivalence holds. -/
theorem C6_final_failure_log_iff_witness :
    (deliver_webhook envDisabled 7).logs = [] ∧
    ∃ saved, (deliver_webhook envNearCeiling 7).saves = [saved] ∧
      ((deliver_webhook envNearCeiling 7).logs ≠ [] ↔
        saved.status = WebhookDeliveryAttemptStatus.failure ∧
        max_retries ≤ saved.attempt_count) ∧
      ((deliver_webhook envNearCeiling 7).logs ≠ [] →
        (deliver_webhook envNearCeiling 7).logs =
          [LogEvent.finalFailure saved.attempt_count nearCeilingAttempt.id
            nearCeilingAttempt.webhook_subscription.url
            nearCeilingAttempt.webhook_event_type saved.status]) :=
  ⟨(C6_final_failure_log_iff envDisabled 7 disabledAttempt rfl).1 rfl,
    (C6_final_failure_log_iff envNearCeiling 7 nearCeilingAttempt rfl).2
      sampleSecret rfl rfl⟩

end Attendee
